import Mathlib

/-!
Shallow embedding of the compliance assessment engine of the
`snipping-bot` repository: the two Python scripts
`scripts/generate-compliance-report.py` and `scripts/security-dashboard.py`.

Filesystem access, wall-clock time and external tool invocations are
modelled as explicit oracles passed to the embedded functions:
  * `FileSystem` answers `os.path.exists` queries (including the documented
    behaviour that an `OSError`, e.g. a permission denial, makes
    `os.path.exists` return `False`) and `glob.glob` queries;
  * a `clock : Nat → Nat` together with a call counter models successive
    `datetime.now()` calls;
  * `ToolRun` models one `subprocess.run` invocation of an external cargo
    tool, distinguishing the exception case, the non-zero-exit case, the
    zero-exit-but-unparseable-JSON case and the parsed-output case.
Fatal exits (`sys.exit(1)`) and uncaught exceptions are modelled with
`Except RunError`.  Float arithmetic on compliance rates is modelled
with `ℚ`.
-/

namespace SnippingBot

/-! ## Filesystem model -/

/-- Result of stat-ing one path: it exists as a file, exists as a
directory, does not exist, or the probe hits an I/O error (e.g.
permission denied). -/
inductive FSResult where
  | file
  | dir
  | notFound
  | ioError
  deriving DecidableEq, Repr

/-- Read-only filesystem oracle: `stat` answers exact-path queries,
`globMatches` returns the list of paths matched by a glob pattern
(files and directories both), as `glob.glob(pattern, recursive=True)`
would. -/
structure FileSystem where
  stat : String → FSResult
  globMatches : String → List String

/-- `os.path.exists`: `True` exactly when the path exists as a file or
directory; a raised `OSError` (permission denied, ...) is swallowed and
yields `False`, per the Python documentation. -/
def os_path_exists (fs : FileSystem) (p : String) : Bool :=
  fs.stat p == FSResult.file || fs.stat p == FSResult.dir

/-- Python's `c in s` membership test on a string. -/
def charIn (c : Char) (s : String) : Bool :=
  s.data.contains c

/-- `check_artifact_exists` (identical in both scripts): empty path is
falsy and returns `False`; a path containing `*` or `?` is globbed and
the result is non-emptiness of the match list; otherwise
`os.path.exists`. -/
def check_artifact_exists (fs : FileSystem) (artifact_path : String) : Bool :=
  if artifact_path = "" then
    false
  else if charIn '*' artifact_path || charIn '?' artifact_path then
    decide ((fs.globMatches artifact_path).length > 0)
  else
    os_path_exists fs artifact_path

/-! ## Data model -/

/-- One parsed checklist row (`csv.DictReader` row), with the fields the
scripts read; missing cells default to `""` at load time. -/
structure ControlRecord where
  layer_number : String
  layer_name : String
  control_group : String
  control : String
  artifact : String
  component : String
  test_category : String
  metric_kpi : String
  evidence : String
  deriving DecidableEq, Repr

/-- The dict built by `assess_control`: all descriptive fields of the
row plus the stringly-typed `status` and `reason`. -/
structure Assessment where
  layer_number : String
  layer_name : String
  control_group : String
  control : String
  status : String
  reason : String
  artifact : String
  component : String
  test_category : String
  metric_kpi : String
  evidence : String
  deriving DecidableEq, Repr

/-- `assess_control` from `generate-compliance-report.py`. -/
def assess_control (fs : FileSystem) (c : ControlRecord) : Assessment :=
  let artifact := c.artifact
  let sr : String × String :=
    if artifact = "" then
      ("Not Applicable", "No artifact specified")
    else if check_artifact_exists fs artifact then
      ("Implemented", "Artifact found")
    else
      ("Missing", "Artifact not found")
  { layer_number := c.layer_number
    layer_name := c.layer_name
    control_group := c.control_group
    control := c.control
    status := sr.1
    reason := sr.2
    artifact := artifact
    component := c.component
    test_category := c.test_category
    metric_kpi := c.metric_kpi
    evidence := c.evidence }

/-! ## Aggregator (`generate_summary`) -/

/-- Per-layer counters of `generate_summary`'s `layer_stats` dict. -/
structure LayerStats where
  implemented : Nat
  missing : Nat
  not_applicable : Nat
  deriving DecidableEq, Repr

/-- The `if/elif/elif` status dispatch inside the layer loop: exactly one
counter is bumped for each of the three known status strings, anything
else leaves the stats unchanged. -/
def updateLayer (s : LayerStats) (status : String) : LayerStats :=
  if status = "Implemented" then
    { s with implemented := s.implemented + 1 }
  else if status = "Missing" then
    { s with missing := s.missing + 1 }
  else if status = "Not Applicable" then
    { s with not_applicable := s.not_applicable + 1 }
  else
    s

/-- Insertion-ordered dict lookup (`layer_stats[k]` presence test). -/
def alookup {α : Type} : List (String × α) → String → Option α
  | [], _ => none
  | (k', v) :: rest, k => if k' = k then some v else alookup rest k

/-- Apply `f` to the value bound to `k` (first binding), as a Python
dict item assignment would. -/
def aupdate {α : Type} (f : α → α) : List (String × α) → String → List (String × α)
  | [], _ => []
  | (k', v) :: rest, k =>
      if k' = k then (k', f v) :: rest else (k', v) :: aupdate f rest k

/-- One loop iteration over a dict-of-counters: create the binding with
`default` on first sight of the key (at the end, preserving insertion
order), then apply the update `f` to the key's value. -/
def astep {α : Type} (default : α) (f : α → α)
    (m : List (String × α)) (k : String) : List (String × α) :=
  match alookup m k with
  | none => aupdate f (m ++ [(k, default)]) k
  | some _ => aupdate f m k

/-- One iteration of `generate_summary`'s layer loop. -/
def layerStep (m : List (String × LayerStats)) (a : Assessment) :
    List (String × LayerStats) :=
  astep ⟨0, 0, 0⟩ (fun s => updateLayer s a.status) m a.layer_number

/-- The dict returned by `generate_summary`. -/
structure Summary where
  generated_at : Nat
  total_controls : Nat
  implemented : Nat
  missing : Nat
  not_applicable : Nat
  applicable : Nat
  compliance_rate : ℚ
  layer_statistics : List (String × LayerStats)
  deriving DecidableEq, Repr

/-- `generate_summary`: counts per status, compliance rate with the
`applicable > 0` guard, layer grouping, and one `datetime.now()` call
(the clock-call counter is threaded and returned). -/
def generate_summary (clock : Nat → Nat) (t : Nat)
    (assessments : List Assessment) : Summary × Nat :=
  let total := assessments.length
  let implemented := assessments.countP (fun a => a.status == "Implemented")
  let missing := assessments.countP (fun a => a.status == "Missing")
  let not_applicable := assessments.countP (fun a => a.status == "Not Applicable")
  let applicable := implemented + missing
  let compliance_rate : ℚ :=
    if applicable > 0 then (implemented : ℚ) / (applicable : ℚ) * 100 else 0
  let layer_stats := assessments.foldl layerStep []
  ({ generated_at := clock t
     total_controls := total
     implemented := implemented
     missing := missing
     not_applicable := not_applicable
     applicable := applicable
     compliance_rate := compliance_rate
     layer_statistics := layer_stats }, t + 1)

/-! ## Report renderers of `generate-compliance-report.py`
(modelled by their data contract: the values each rendered report
surfaces, per the spec's scoping of template syntax to collaborators) -/

/-- Data surfaced by `generate_text_report`'s text output. -/
structure TextReport where
  generated : Nat
  total_controls : Nat
  implemented : Nat
  missing : Nat
  not_applicable : Nat
  compliance_rate : ℚ
  layer_lines : List (String × Nat × Nat × ℚ)
  missing_controls : List Assessment
  deriving DecidableEq, Repr

/-- `generate_text_report`: header timestamp from the summary, summary
block, one line per `layer_statistics` entry with
`applicable_layer = implemented + missing` and the guarded rate, and
the filtered list of missing controls. -/
def generate_text_report (assessments : List Assessment) (summary : Summary) :
    TextReport :=
  { generated := summary.generated_at
    total_controls := summary.total_controls
    implemented := summary.implemented
    missing := summary.missing
    not_applicable := summary.not_applicable
    compliance_rate := summary.compliance_rate
    layer_lines := summary.layer_statistics.map (fun p =>
      let applicable_layer : Nat := p.2.implemented + p.2.missing
      let rate : ℚ :=
        if applicable_layer > 0 then
          (p.2.implemented : ℚ) / (applicable_layer : ℚ) * 100
        else 0
      (p.1, p.2.implemented, applicable_layer, rate))
    missing_controls := assessments.filter (fun a => a.status == "Missing") }

/-- Data surfaced by `generate_json_report`: the summary and the full
assessment list, verbatim. -/
structure JsonReport where
  summary : Summary
  assessments : List Assessment
  deriving DecidableEq, Repr

/-- `generate_json_report`. -/
def generate_json_report (assessments : List Assessment) (summary : Summary) :
    JsonReport :=
  { summary := summary, assessments := assessments }

/-! ## Loading and the report script's `main` -/

/-- State of the checklist CSV file as `load_checklist` finds it. -/
inductive ChecklistSource where
  | missing
  | unreadable
  | ok (rows : List ControlRecord)
  deriving DecidableEq, Repr

/-- How a run halts without producing output: a `sys.exit` with a code,
or an uncaught Python exception. -/
inductive RunError where
  | exitCode (code : Nat)
  | uncaughtException (msg : String)
  deriving DecidableEq, Repr

/-- `load_checklist` (identical in both scripts): `FileNotFoundError`
and any other read/parse exception both print and `sys.exit(1)`;
otherwise the parsed rows are returned. -/
def load_checklist : ChecklistSource → Except RunError (List ControlRecord)
  | ChecklistSource.missing => Except.error (RunError.exitCode 1)
  | ChecklistSource.unreadable => Except.error (RunError.exitCode 1)
  | ChecklistSource.ok rows => Except.ok rows

/-- The two report files written by the report script's `main`. -/
structure ReportOutputs where
  text : TextReport
  json : JsonReport
  deriving DecidableEq, Repr

/-- `main` of `generate-compliance-report.py`: load (aborting on
failure before any assessment), assess every row, summarise once, then
render the text and JSON reports from the same summary. -/
def report_main (clock : Nat → Nat) (src : ChecklistSource)
    (fs : FileSystem) : Except RunError ReportOutputs :=
  match load_checklist src with
  | Except.error e => Except.error e
  | Except.ok checklist =>
    let assessments := checklist.map (assess_control fs)
    let p := generate_summary clock 0 assessments
    Except.ok
      { text := generate_text_report assessments p.1
        json := generate_json_report assessments p.1 }

/-! ## External tools (`security-dashboard.py`, `run_security_audit`) -/

/-- One vulnerability entry of `cargo audit --json` output. -/
structure VulnEntry where
  severity : String
  deriving DecidableEq, Repr

/-- Parsed `cargo audit --json` output. -/
structure AuditOutput where
  vulnerabilities : List VulnEntry
  deriving DecidableEq, Repr

/-- Parsed `cargo deny check --format json` output. -/
structure DenyOutput where
  licenses : List String
  bans : List String
  deriving DecidableEq, Repr

/-- Outcome of one `subprocess.run` of an external tool:
`raised` covers `TimeoutExpired`, `SubprocessError` and
`FileNotFoundError` (all caught); `exitNonZero` is a completed run with
non-zero status; `exitZeroUnparseable` completed with status 0 but
stdout that `json.loads` rejects; `exitZeroParsed` completed with
status 0 and parseable stdout. -/
inductive ToolRun (α : Type) where
  | raised
  | exitNonZero
  | exitZeroUnparseable
  | exitZeroParsed (data : α)
  deriving DecidableEq, Repr

/-- Whether this outcome escapes `run_security_audit`'s `except` clause:
only a `json.loads` failure does (`json.JSONDecodeError` is not among
the caught exception types). -/
def ToolRun.escapes {α : Type} : ToolRun α → Bool
  | ToolRun.exitZeroUnparseable => true
  | _ => false

/-- The `metrics` dict built by `run_security_audit`: per sub-dict, the
optional numeric keys and the optional `error` key (a key absent from
the dict is `none`). -/
structure AuditMetrics where
  timestamp : Nat
  vuln_count : Option Nat
  vuln_critical : Option Nat
  vuln_error : Option String
  license_issues : Option Nat
  ban_issues : Option Nat
  compliance_error : Option String
  deriving DecidableEq, Repr, Inhabited

/-- `run_security_audit`: timestamp first, then the cargo-audit block,
then the cargo-deny block; each block either fills its numeric keys
(from parsed output), or records its `error` string (caught exception
or non-zero exit), or — for unparseable zero-exit output — raises an
uncaught `json.JSONDecodeError` that aborts the whole function. -/
def run_security_audit (clock : Nat → Nat) (t : Nat)
    (audit : ToolRun AuditOutput) (deny : ToolRun DenyOutput) :
    Except RunError (AuditMetrics × Nat) :=
  let ts := clock t
  let vulnPart : Except RunError (Option Nat × Option Nat × Option String) :=
    match audit with
    | ToolRun.exitZeroParsed d =>
        Except.ok (some d.vulnerabilities.length,
          some (d.vulnerabilities.countP (fun v => v.severity == "critical")),
          none)
    | ToolRun.exitZeroUnparseable =>
        Except.error (RunError.uncaughtException "json.JSONDecodeError: cargo audit stdout")
    | ToolRun.exitNonZero => Except.ok (none, none, some "Cargo audit failed")
    | ToolRun.raised => Except.ok (none, none, some "Cargo audit not available")
  match vulnPart with
  | Except.error e => Except.error e
  | Except.ok vp =>
    let compPart : Except RunError (Option Nat × Option Nat × Option String) :=
      match deny with
      | ToolRun.exitZeroParsed d =>
          Except.ok (some d.licenses.length, some d.bans.length, none)
      | ToolRun.exitZeroUnparseable =>
          Except.error (RunError.uncaughtException "json.JSONDecodeError: cargo deny stdout")
      | ToolRun.exitNonZero => Except.ok (none, none, some "Cargo deny failed")
      | ToolRun.raised => Except.ok (none, none, some "Cargo deny not available")
    match compPart with
    | Except.error e => Except.error e
    | Except.ok cp =>
      Except.ok
        ({ timestamp := ts
           vuln_count := vp.1
           vuln_critical := vp.2.1
           vuln_error := vp.2.2
           license_issues := cp.1
           ban_issues := cp.2.1
           compliance_error := cp.2.2 }, t + 1)

/-! ## Dashboard compliance metrics (`calculate_compliance_metrics`) -/

/-- Per-layer counters of `calculate_compliance_metrics`'s
`layer_metrics` dict (note: no not-applicable counter; `total` counts
every control of the layer). -/
structure DashLayerStats where
  total : Nat
  implemented : Nat
  missing : Nat
  deriving DecidableEq, Repr, Inhabited

/-- Body of the dashboard's per-layer loop iteration for one control:
`total` always bumped, then `implemented` if the artifact is non-empty
and exists, else `missing` if the artifact is non-empty. -/
def dashUpdate (fs : FileSystem) (c : ControlRecord) (s : DashLayerStats) :
    DashLayerStats :=
  let s := { s with total := s.total + 1 }
  if c.artifact ≠ "" && check_artifact_exists fs c.artifact then
    { s with implemented := s.implemented + 1 }
  else if c.artifact ≠ "" then
    { s with missing := s.missing + 1 }
  else
    s

/-- One iteration of the dashboard's layer loop. -/
def dashLayerStep (fs : FileSystem) (m : List (String × DashLayerStats))
    (c : ControlRecord) : List (String × DashLayerStats) :=
  astep ⟨0, 0, 0⟩ (dashUpdate fs c) m c.layer_number

/-- The dict returned by `calculate_compliance_metrics`. -/
structure DashMetrics where
  total_controls : Nat
  implemented_controls : Nat
  missing_controls : Nat
  compliance_rate : ℚ
  layer_metrics : List (String × DashLayerStats)
  deriving DecidableEq, Repr, Inhabited

/-- `calculate_compliance_metrics`: global implemented/missing counts
over the whole checklist, compliance rate with denominator
`total_controls` (guarded against zero), and the per-layer dict. -/
def calculate_compliance_metrics (fs : FileSystem)
    (checklist : List ControlRecord) : DashMetrics :=
  let total_controls := checklist.length
  let implemented_controls :=
    checklist.countP (fun c => c.artifact ≠ "" && check_artifact_exists fs c.artifact)
  let missing_controls :=
    checklist.countP (fun c => c.artifact ≠ "" && !check_artifact_exists fs c.artifact)
  let layer_metrics := checklist.foldl (dashLayerStep fs) []
  { total_controls := total_controls
    implemented_controls := implemented_controls
    missing_controls := missing_controls
    compliance_rate :=
      if total_controls > 0 then
        (implemented_controls : ℚ) / (total_controls : ℚ) * 100
      else 0
    layer_metrics := layer_metrics }

/-! ## HTML dashboard renderer -/

/-- Rendering of `dict.get(key, 'N/A')` inside an f-string. -/
def renderOrNA : Option Nat → String
  | some n => toString n
  | none => "N/A"

/-- Rendering of `dict.get(key, 0)` inside an f-string. -/
def renderOrZero : Option Nat → String
  | some n => toString n
  | none => "0"

/-- `get_layer_name`: static table, default `"Unknown Layer"`. -/
def get_layer_name (layer_num : String) : String :=
  (alookup
    [("1", "Governance & Policy"),
     ("2", "Risk & Threat Modeling"),
     ("3", "Secure SDLC & Supply Chain"),
     ("4", "Identity & Access (IAM)"),
     ("5", "Secrets Management"),
     ("6", "Key & Cryptography"),
     ("7", "Network Segmentation & Transport"),
     ("8", "Perimeter & API Gateway"),
     ("9", "Host/Endpoint Hardening"),
     ("10", "Containers & Orchestration"),
     ("11", "Cloud/IaaS Security"),
     ("12", "Data Security"),
     ("13", "Application Security"),
     ("14", "Protocol/API Security"),
     ("15", "Messaging & Event Security"),
     ("16", "Database Security"),
     ("17", "Wallet/Custody & Key Ops (Web3)"),
     ("18", "Oracle & Market Data Integrity (Web3)"),
     ("19", "Privacy & Compliance"),
     ("20", "Observability & Telemetry Security"),
     ("21", "Detection & Response"),
     ("22", "Resilience, Availability & Chaos")]
    layer_num).getD "Unknown Layer"

/-- Data surfaced by `generate_html_report`'s HTML output: its own
`datetime.now()` timestamp, the compliance card, the vulnerability card
(`.get('count', 'N/A')` and `.get('critical', 0)`) and the per-layer
table rows.  The closing "Security Metrics" section of the source is
appended as a plain (non-f) string literal, so its four placeholders —
a second critical/count pair, the license issues and the ban issues —
are emitted as constant literal text and never evaluated; in
particular the license and ban counts are surfaced nowhere in the HTML
and have no field here. -/
structure HtmlReport where
  generated : Nat
  compliance_rate : ℚ
  implemented_controls : Nat
  total_controls : Nat
  vulnerabilities_count : String
  vulnerabilities_critical : String
  missing_controls : Nat
  layer_rows : List (String × String × ℚ × Nat × Nat)
  deriving DecidableEq, Repr, Inhabited

/-- `generate_html_report` (one `datetime.now()` call of its own; layer
rows use `implemented / total * 100`, guarded against `total = 0`; of
the audit metrics only the vulnerability count and critical count are
evaluated — the trailing section naming the other metrics is a non-f
string whose placeholders stay literal text). -/
def generate_html_report (clock : Nat → Nat) (t : Nat)
    (audit_metrics : AuditMetrics) (compliance_metrics : DashMetrics) :
    HtmlReport × Nat :=
  ({ generated := clock t
     compliance_rate := compliance_metrics.compliance_rate
     implemented_controls := compliance_metrics.implemented_controls
     total_controls := compliance_metrics.total_controls
     vulnerabilities_count := renderOrNA audit_metrics.vuln_count
     vulnerabilities_critical := renderOrZero audit_metrics.vuln_critical
     missing_controls := compliance_metrics.missing_controls
     layer_rows := compliance_metrics.layer_metrics.map (fun p =>
       let rate : ℚ :=
         if p.2.total > 0 then
           (p.2.implemented : ℚ) / (p.2.total : ℚ) * 100
         else 0
       (p.1, get_layer_name p.1, rate, p.2.implemented, p.2.total)) }, t + 1)

/-- The `dashboard_data` dict written to `security-dashboard.json`
(with a third, separate `datetime.now()` timestamp). -/
structure DashboardJson where
  timestamp : Nat
  audit_metrics : AuditMetrics
  compliance_metrics : DashMetrics
  deriving DecidableEq, Repr, Inhabited

/-- The two files written by `generate_dashboard`. -/
structure DashboardOutputs where
  html : HtmlReport
  json : DashboardJson
  deriving DecidableEq, Repr, Inhabited

/-- `main` of `security-dashboard.py`: the constructor loads the
checklist (exiting on failure), then `generate_dashboard` runs the
audit (which may raise), computes the compliance metrics, renders the
HTML report, and builds the JSON payload, calling `datetime.now()` at
clock positions 0 (audit), 1 (HTML) and 2 (JSON). -/
def dashboard_main (clock : Nat → Nat) (src : ChecklistSource)
    (fs : FileSystem) (audit : ToolRun AuditOutput)
    (deny : ToolRun DenyOutput) : Except RunError DashboardOutputs :=
  match load_checklist src with
  | Except.error e => Except.error e
  | Except.ok checklist =>
    match run_security_audit clock 0 audit deny with
    | Except.error e => Except.error e
    | Except.ok am =>
      let compliance_metrics := calculate_compliance_metrics fs checklist
      let hp := generate_html_report clock am.2 am.1 compliance_metrics
      let json : DashboardJson :=
        { timestamp := clock hp.2
          audit_metrics := am.1
          compliance_metrics := compliance_metrics }
      Except.ok { html := hp.1, json := json }

/-! ## Concrete sample inputs -/

/-- A checklist row with descriptive fields filled in, parameterised by
layer and artifact spec. -/
def mkRecord (layer : String) (artifact : String) : ControlRecord :=
  { layer_number := layer
    layer_name := "Secrets Management"
    control_group := "Vault"
    control := "Central secret store deployed"
    artifact := artifact
    component := "K8s"
    test_category := "Config"
    metric_kpi := "coverage"
    evidence := "vault config" }

/-- Filesystem on which exactly `configs/policy.md` exists (as a file)
and no glob pattern matches anything. -/
def fsA : FileSystem :=
  { stat := fun p => if p = "configs/policy.md" then FSResult.file else FSResult.notFound
    globMatches := fun _ => [] }

/-- Filesystem on which nothing exists. -/
def emptyFS : FileSystem :=
  { stat := fun _ => FSResult.notFound
    globMatches := fun _ => [] }

/-- Filesystem on which stat-ing `protected/config` hits a permission
error (`OSError`) and everything else is absent. -/
def permFS : FileSystem :=
  { stat := fun p => if p = "protected/config" then FSResult.ioError else FSResult.notFound
    globMatches := fun _ => [] }

/-- Row with no artifact spec. -/
def recNoArtifact : ControlRecord := mkRecord "5" ""

/-- Row whose artifact exists on `fsA`. -/
def recFound : ControlRecord := mkRecord "5" "configs/policy.md"

/-- Row whose literal artifact path exists nowhere. -/
def recAbsent : ControlRecord := mkRecord "6" "does-not-exist.txt"

/-- Row whose artifact stat hits a permission error on `permFS`. -/
def recPerm : ControlRecord := mkRecord "7" "protected/config"

/-- Identity clock: the n-th `datetime.now()` call returns `n`. -/
def idClock : Nat → Nat := fun n => n

/-- Filesystem on which the glob pattern `logs/*.txt` has one match and
nothing else exists. -/
def fsGlob : FileSystem :=
  { stat := fun _ => FSResult.notFound
    globMatches := fun p => if p = "logs/*.txt" then ["logs/a.txt"] else [] }

/-- A three-row demo checklist assessed on `fsA`: one not-applicable,
one implemented, one missing control. -/
def demoAssessments : List Assessment :=
  [recNoArtifact, recFound, recAbsent].map (assess_control fsA)

/-- A one-row demo assessment list (layer 5, implemented). -/
def demoAs1 : List Assessment := [assess_control fsA recFound]

/-! ## Specification-side vocabulary used in the statements -/

/-- The spec's `Assessment` well-formedness: the status is one of the
three tri-state strings. -/
def TriState (as : List Assessment) : Prop :=
  ∀ a ∈ as, a.status = "Implemented" ∨ a.status = "Missing" ∨ a.status = "Not Applicable"

/-- Effect on one layer's counters of folding a whole assessment list:
each matching assessment applies `updateLayer`, the rest are skipped. -/
def applyLayer (k : String) (s : LayerStats) (as : List Assessment) : LayerStats :=
  as.foldl (fun s a => if a.layer_number = k then updateLayer s a.status else s) s

/-- Number of assessments in the given layer with the given status. -/
def countLayer (as : List Assessment) (k st : String) : Nat :=
  as.countP (fun a => a.layer_number == k && a.status == st)

/-- Sum of one projected counter over all entries of a layer dict. -/
def sumBy {α : Type} (g : α → Nat) (m : List (String × α)) : Nat :=
  (m.map (fun p => g p.2)).sum

/-- The audit metrics of a run where cargo audit raised and cargo deny
exited non-zero. -/
def amDemo : AuditMetrics :=
  { timestamp := 0
    vuln_count := none
    vuln_critical := none
    vuln_error := some "Cargo audit not available"
    license_issues := none
    ban_issues := none
    compliance_error := some "Cargo deny failed" }

/-- Output of a demo dashboard run with both tools unavailable. -/
def dashDemoOut : DashboardOutputs :=
  (dashboard_main idClock (ChecklistSource.ok [recFound]) fsA ToolRun.raised
    ToolRun.raised).toOption.getD default

/-! ## Dict lemmas -/

theorem alookup_aupdate {α : Type} (f : α → α) (m : List (String × α)) (k k' : String) :
    alookup (aupdate f m k) k' =
      if k' = k then (alookup m k).map f else alookup m k' := by
  induction m with
  | nil => by_cases h : k' = k <;> simp [alookup, aupdate, h]
  | cons p rest ih =>
    obtain ⟨k0, v⟩ := p
    by_cases h0 : k0 = k
    · subst h0
      by_cases h1 : k0 = k'
      · subst h1
        simp [alookup, aupdate]
      · have h1' : ¬k' = k0 := fun h => h1 (Eq.symm h)
        simp [alookup, aupdate, h1, h1']
    · by_cases h1 : k0 = k'
      · subst h1
        have h0' : ¬k0 = k := h0
        simp [alookup, aupdate, h0']
      · simp [alookup, aupdate, h0, h1, ih]

theorem alookup_append_single {α : Type} (m : List (String × α)) (k0 : String) (v0 : α)
    (k : String) :
    alookup (m ++ [(k0, v0)]) k =
      match alookup m k with
      | some w => some w
      | none => if k0 = k then some v0 else none := by
  induction m with
  | nil => simp [alookup]
  | cons p rest ih =>
    obtain ⟨k1, v1⟩ := p
    by_cases h : k1 = k <;> simp [alookup, h, ih]

theorem alookup_astep {α : Type} (d : α) (f : α → α) (m : List (String × α)) (k k' : String) :
    alookup (astep d f m k) k' =
      if k' = k then some (f ((alookup m k).getD d)) else alookup m k' := by
  unfold astep
  cases hm : alookup m k with
  | none =>
    rw [alookup_aupdate]
    by_cases h : k' = k
    · subst h
      rw [if_pos rfl, if_pos rfl, alookup_append_single, hm]
      simp
    · rw [if_neg h, if_neg h, alookup_append_single]
      cases h2 : alookup m k' with
      | none =>
        have h' : ¬k = k' := fun hkk => h (Eq.symm hkk)
        simp [h']
      | some w => simp
  | some v =>
    rw [alookup_aupdate]
    by_cases h : k' = k <;> simp [h, hm]

theorem forall_aupdate {α : Type} (P : α → Prop) (f : α → α) (m : List (String × α))
    (k : String) (hm : ∀ p ∈ m, P p.2) (hf : ∀ v, P v → P (f v)) :
    ∀ p ∈ aupdate f m k, P p.2 := by
  induction m with
  | nil => simp [aupdate]
  | cons q rest ih =>
    obtain ⟨k0, v⟩ := q
    intro p hp
    by_cases h : k0 = k
    · simp only [aupdate, if_pos h] at hp
      rcases List.mem_cons.mp hp with h1 | h1
      · subst h1
        exact hf v (hm (k0, v) (List.mem_cons_self _ _))
      · exact hm p (List.mem_cons_of_mem _ h1)
    · simp only [aupdate, if_neg h] at hp
      rcases List.mem_cons.mp hp with h1 | h1
      · subst h1
        exact hm (k0, v) (List.mem_cons_self _ _)
      · exact ih (fun q hq => hm q (List.mem_cons_of_mem _ hq)) p h1

theorem forall_astep {α : Type} (P : α → Prop) (d : α) (f : α → α) (m : List (String × α))
    (k : String) (hm : ∀ p ∈ m, P p.2) (hd : P d) (hf : ∀ v, P v → P (f v)) :
    ∀ p ∈ astep d f m k, P p.2 := by
  unfold astep
  cases alookup m k with
  | none =>
    apply forall_aupdate P f _ _ _ hf
    intro p hp
    rcases List.mem_append.mp hp with h1 | h1
    · exact hm p h1
    · rcases List.mem_singleton.mp h1 with rfl
      exact hd
  | some v => exact forall_aupdate P f m k hm hf

theorem sumBy_aupdate {α : Type} (g : α → Nat) (f : α → α) (inc : Nat)
    (hf : ∀ v, g (f v) = g v + inc) (m : List (String × α)) (k : String) :
    sumBy g (aupdate f m k) = sumBy g m + (if (alookup m k).isSome then inc else 0) := by
  induction m with
  | nil => simp [sumBy, aupdate, alookup]
  | cons p rest ih =>
    obtain ⟨k0, v⟩ := p
    by_cases h : k0 = k
    · simp [sumBy, aupdate, alookup, h, hf]
      omega
    · simp only [sumBy, aupdate, if_neg h, List.map_cons, List.sum_cons, alookup] at *
      rw [ih]
      omega

theorem sumBy_append_single {α : Type} (g : α → Nat) (m : List (String × α)) (k : String)
    (d : α) : sumBy g (m ++ [(k, d)]) = sumBy g m + g d := by
  simp [sumBy]

theorem sumBy_astep {α : Type} (g : α → Nat) (d : α) (f : α → α) (inc : Nat)
    (hf : ∀ v, g (f v) = g v + inc) (hd : g d = 0) (m : List (String × α)) (k : String) :
    sumBy g (astep d f m k) = sumBy g m + inc := by
  unfold astep
  cases hm : alookup m k with
  | none =>
    rw [sumBy_aupdate g f inc hf, alookup_append_single, hm, sumBy_append_single]
    simp [hd]
  | some v =>
    rw [sumBy_aupdate g f inc hf, hm]
    simp

/-! ## Layer-fold characterization lemmas -/

theorem updateLayer_implemented (s : LayerStats) (st : String) :
    (updateLayer s st).implemented =
      s.implemented + (if st = "Implemented" then 1 else 0) := by
  unfold updateLayer
  split_ifs <;> simp_all

theorem updateLayer_missing (s : LayerStats) (st : String) :
    (updateLayer s st).missing = s.missing + (if st = "Missing" then 1 else 0) := by
  unfold updateLayer
  split_ifs <;> simp_all

theorem updateLayer_not_applicable (s : LayerStats) (st : String) :
    (updateLayer s st).not_applicable =
      s.not_applicable + (if st = "Not Applicable" then 1 else 0) := by
  unfold updateLayer
  split_ifs <;> simp_all

theorem applyLayer_nil (k : String) (s : LayerStats) : applyLayer k s [] = s := rfl

theorem applyLayer_cons (k : String) (s : LayerStats) (a : Assessment)
    (as : List Assessment) :
    applyLayer k s (a :: as) =
      applyLayer k (if a.layer_number = k then updateLayer s a.status else s) as := rfl

theorem countLayer_cons (a : Assessment) (as : List Assessment) (k st : String) :
    countLayer (a :: as) k st =
      countLayer as k st + (if a.layer_number = k ∧ a.status = st then 1 else 0) := by
  simp only [countLayer, List.countP_cons, Bool.and_eq_true, beq_iff_eq, decide_eq_true_eq]

theorem applyLayer_counts (k : String) (as : List Assessment) (s : LayerStats) :
    applyLayer k s as =
      ⟨s.implemented + countLayer as k "Implemented",
       s.missing + countLayer as k "Missing",
       s.not_applicable + countLayer as k "Not Applicable"⟩ := by
  induction as generalizing s with
  | nil =>
    simp [applyLayer_nil, countLayer]
  | cons a rest ih =>
    rw [applyLayer_cons, ih]
    by_cases hk : a.layer_number = k
    · simp only [if_pos hk, LayerStats.mk.injEq]
      rw [updateLayer_implemented, updateLayer_missing, updateLayer_not_applicable,
        countLayer_cons, countLayer_cons, countLayer_cons]
      refine ⟨?_, ?_, ?_⟩ <;>
        · simp only [hk, true_and]
          split_ifs <;> omega
    · simp only [if_neg hk, LayerStats.mk.injEq]
      rw [countLayer_cons, countLayer_cons, countLayer_cons]
      simp [hk]

theorem alookup_foldl_layerStep (as : List Assessment)
    (m : List (String × LayerStats)) (k : String) :
    alookup (as.foldl layerStep m) k =
      match alookup m k with
      | some s => some (applyLayer k s as)
      | none =>
          if as.any (fun a => a.layer_number == k) then
            some (applyLayer k ⟨0, 0, 0⟩ as)
          else none := by
  induction as generalizing m with
  | nil =>
    cases h : alookup m k <;> simp [applyLayer_nil, h]
  | cons a rest ih =>
    rw [List.foldl_cons, ih]
    have hstep : alookup (layerStep m a) k =
        if k = a.layer_number then
          some (updateLayer ((alookup m a.layer_number).getD ⟨0, 0, 0⟩) a.status)
        else alookup m k := by
      unfold layerStep
      rw [alookup_astep]
    by_cases hk : a.layer_number = k
    · rw [hstep, if_pos (Eq.symm hk), hk]
      cases hm : alookup m k with
      | some s =>
        simp [hm, applyLayer_cons, hk]
      | none =>
        simp [hm, applyLayer_cons, hk]
    · rw [hstep, if_neg (fun h => hk (Eq.symm h))]
      cases hm : alookup m k with
      | some s =>
        simp [hm, applyLayer_cons, hk]
      | none =>
        simp [hm, applyLayer_cons, hk]

theorem countP_triState (as : List Assessment) (h : TriState as) :
    as.countP (fun a => a.status == "Implemented")
      + as.countP (fun a => a.status == "Missing")
      + as.countP (fun a => a.status == "Not Applicable") = as.length := by
  induction as with
  | nil => simp
  | cons a rest ih =>
    have ha := h a (List.mem_cons_self _ _)
    have hrest : TriState rest := fun b hb => h b (List.mem_cons_of_mem _ hb)
    simp only [List.countP_cons, List.length_cons, beq_iff_eq]
    have hne1 : ("Implemented" : String) ≠ "Missing" := by decide
    have hne2 : ("Implemented" : String) ≠ "Not Applicable" := by decide
    have hne3 : ("Missing" : String) ≠ "Not Applicable" := by decide
    have ihh := ih hrest
    rcases ha with h1 | h1 | h1 <;>
      · simp [h1, hne1, hne2, hne3, hne1.symm, hne2.symm, hne3.symm]
        omega

theorem countLayer_triState (as : List Assessment) (k : String) (h : TriState as) :
    countLayer as k "Implemented" + countLayer as k "Missing"
      + countLayer as k "Not Applicable"
      = as.countP (fun a => a.layer_number == k) := by
  induction as with
  | nil => simp [countLayer]
  | cons a rest ih =>
    have ha := h a (List.mem_cons_self _ _)
    have hrest : TriState rest := fun b hb => h b (List.mem_cons_of_mem _ hb)
    rw [countLayer_cons, countLayer_cons, countLayer_cons]
    simp only [List.countP_cons, beq_iff_eq]
    have hne1 : ("Implemented" : String) ≠ "Missing" := by decide
    have hne2 : ("Implemented" : String) ≠ "Not Applicable" := by decide
    have hne3 : ("Missing" : String) ≠ "Not Applicable" := by decide
    have ihh := ih hrest
    by_cases hk : a.layer_number = k
    · rcases ha with h1 | h1 | h1 <;>
        · simp [hk, h1, hne1, hne2, hne3, hne1.symm, hne2.symm, hne3.symm]
          omega
    · simp [hk, ihh]

theorem sumBy_foldl_layerStep (g : LayerStats → Nat) (st : String)
    (hg : ∀ v s, g (updateLayer v s) = g v + (if s = st then 1 else 0))
    (hz : g ⟨0, 0, 0⟩ = 0) (as : List Assessment) (m : List (String × LayerStats)) :
    sumBy g (as.foldl layerStep m) =
      sumBy g m + as.countP (fun a => a.status == st) := by
  induction as generalizing m with
  | nil => simp
  | cons a rest ih =>
    rw [List.foldl_cons, ih]
    have hstep : sumBy g (layerStep m a) = sumBy g m + (if a.status = st then 1 else 0) := by
      unfold layerStep
      exact sumBy_astep g ⟨0, 0, 0⟩ _ _ (fun v => hg v a.status) hz m a.layer_number
    rw [hstep]
    simp only [List.countP_cons, beq_iff_eq]
    by_cases hs : a.status = st
    · simp [hs]
      omega
    · simp [hs]

theorem forall_foldl_dashLayerStep (fs : FileSystem) (P : DashLayerStats → Prop)
    (hd : P ⟨0, 0, 0⟩) (hstep : ∀ c v, P v → P (dashUpdate fs c v))
    (checklist : List ControlRecord) (m : List (String × DashLayerStats))
    (hm : ∀ p ∈ m, P p.2) :
    ∀ p ∈ checklist.foldl (dashLayerStep fs) m, P p.2 := by
  induction checklist generalizing m with
  | nil => exact hm
  | cons c rest ih =>
    rw [List.foldl_cons]
    apply ih
    unfold dashLayerStep
    exact forall_astep P ⟨0, 0, 0⟩ (dashUpdate fs c) m c.layer_number hm hd (hstep c)

/-! ## Rate bounds -/

theorem rate_bounds (i d : Nat) (h : i ≤ d) :
    0 ≤ (i : ℚ) / (d : ℚ) * 100 ∧ (i : ℚ) / (d : ℚ) * 100 ≤ 100 := by
  rcases Nat.eq_zero_or_pos d with hd | hd
  · subst hd
    simp
  · have hdq : (0 : ℚ) < (d : ℚ) := by exact_mod_cast hd
    constructor
    · positivity
    · have h1 : (i : ℚ) / (d : ℚ) ≤ 1 := by
        rw [div_le_one hdq]
        exact_mod_cast h
      nlinarith

theorem guarded_rate_bounds (i d : Nat) (h : i ≤ d) :
    0 ≤ (if d > 0 then (i : ℚ) / (d : ℚ) * 100 else 0) ∧
      (if d > 0 then (i : ℚ) / (d : ℚ) * 100 else 0) ≤ 100 := by
  split_ifs with hd
  · exact rate_bounds i d h
  · norm_num

/-! ## Control assessor characterization -/

theorem assess_control_status (fs : FileSystem) (c : ControlRecord) :
    (assess_control fs c).status =
      if c.artifact = "" then "Not Applicable"
      else if check_artifact_exists fs c.artifact then "Implemented"
      else "Missing" := by
  simp only [assess_control]
  split_ifs <;> rfl

theorem assess_control_reason (fs : FileSystem) (c : ControlRecord) :
    (assess_control fs c).reason =
      if c.artifact = "" then "No artifact specified"
      else if check_artifact_exists fs c.artifact then "Artifact found"
      else "Artifact not found" := by
  simp only [assess_control]
  split_ifs <;> rfl

/-! ## Claims -/

/-- Claim C1 (counterexample): the claim's reason strings are lowercase
(`"no artifact specified"`), but `assess_control` produces capitalized
ones: the control with empty artifact spec gets status `Not Applicable`
with reason `"No artifact specified"`, which differs from the claim's
`"no artifact specified"`. -/
theorem C1_reason_capitalization_cex :
    (assess_control fsA recNoArtifact).status = "Not Applicable" ∧
    (assess_control fsA recNoArtifact).reason = "No artifact specified" ∧
    (assess_control fsA recNoArtifact).reason ≠ "no artifact specified" := by
  refine ⟨rfl, rfl, ?_⟩
  decide

/-- Claim C1 (amended): for every `ControlRecord`, the derived
assessment has status `Not Applicable` iff `artifact` is empty,
otherwise `Implemented` exactly when the resolver reports the artifact
exists and `Missing` otherwise, with reasons `"No artifact specified"` /
`"Artifact found"` / `"Artifact not found"` respectively (capitalized,
unlike the claim's quoted strings); all descriptive fields pass through
unchanged, and nothing besides the artifact spec and the resolver
result affects the status. -/
theorem C1_assess_control_amended (fs : FileSystem) (c : ControlRecord) :
    ((assess_control fs c).status = "Not Applicable" ↔ c.artifact = "") ∧
    ((assess_control fs c).status = "Implemented" ↔
      (c.artifact ≠ "" ∧ check_artifact_exists fs c.artifact = true)) ∧
    ((assess_control fs c).status = "Missing" ↔
      (c.artifact ≠ "" ∧ check_artifact_exists fs c.artifact = false)) ∧
    ((assess_control fs c).reason =
      if c.artifact = "" then "No artifact specified"
      else if check_artifact_exists fs c.artifact then "Artifact found"
      else "Artifact not found") ∧
    (assess_control fs c).layer_number = c.layer_number ∧
    (assess_control fs c).layer_name = c.layer_name ∧
    (assess_control fs c).control_group = c.control_group ∧
    (assess_control fs c).control = c.control ∧
    (assess_control fs c).artifact = c.artifact ∧
    (assess_control fs c).component = c.component ∧
    (assess_control fs c).test_category = c.test_category ∧
    (assess_control fs c).metric_kpi = c.metric_kpi ∧
    (assess_control fs c).evidence = c.evidence ∧
    (∀ (fs' : FileSystem) (c' : ControlRecord), c'.artifact = c.artifact →
      check_artifact_exists fs' c'.artifact = check_artifact_exists fs c.artifact →
      (assess_control fs' c').status = (assess_control fs c).status) := by
  have hNA1 : ("Not Applicable" : String) ≠ "Implemented" := by decide
  have hNA2 : ("Not Applicable" : String) ≠ "Missing" := by decide
  have hIM : ("Implemented" : String) ≠ "Missing" := by decide
  refine ⟨?_, ?_, ?_, assess_control_reason fs c, rfl, rfl, rfl, rfl, rfl, rfl, rfl, rfl, rfl, ?_⟩
  · rw [assess_control_status]
    by_cases h1 : c.artifact = ""
    · simp [h1]
    · by_cases h2 : check_artifact_exists fs c.artifact = true
      · simp [h1, h2, hNA1.symm]
      · simp [h1, h2, hNA2.symm]
  · rw [assess_control_status]
    by_cases h1 : c.artifact = ""
    · simp [h1, hNA1]
    · by_cases h2 : check_artifact_exists fs c.artifact = true
      · simp [h1, h2]
      · simp [h1, h2, hIM.symm]
  · rw [assess_control_status]
    by_cases h1 : c.artifact = ""
    · simp [h1, hNA2]
    · by_cases h2 : check_artifact_exists fs c.artifact = true
      · simp [h1, h2, hIM]
      · have h2' : check_artifact_exists fs c.artifact = false := by simpa using h2
        simp [h1, h2']
  · intro fs' c' h1 h2
    rw [assess_control_status, assess_control_status, h2, h1]

/-- Claim C1 witness: on the sample filesystem, the control whose
artifact exists is assessed `Implemented`. -/
theorem C1_assess_control_witness :
    (assess_control fsA recFound).status = "Implemented" := by
  have h := C1_assess_control_amended fsA recFound
  exact (h.2.1).mpr ⟨by decide, by decide⟩

/-- Claim C4: `check_artifact_exists` returns `false` on the empty
spec; on a spec containing `*` or `?` it returns `true` iff the
recursive glob match list is non-empty; otherwise it returns `true` iff
the exact path exists as a file or directory. -/
theorem C4_artifact_resolver (fs : FileSystem) (spec : String) :
    (spec = "" → check_artifact_exists fs spec = false) ∧
    (spec ≠ "" → (charIn '*' spec = true ∨ charIn '?' spec = true) →
      (check_artifact_exists fs spec = true ↔ fs.globMatches spec ≠ [])) ∧
    (spec ≠ "" → charIn '*' spec = false → charIn '?' spec = false →
      (check_artifact_exists fs spec = true ↔
        (fs.stat spec = FSResult.file ∨ fs.stat spec = FSResult.dir))) := by
  unfold check_artifact_exists os_path_exists
  refine ⟨?_, ?_, ?_⟩
  · intro h
    simp [h]
  · intro h1 h2
    rw [if_neg h1, if_pos (by rcases h2 with h | h <;> simp [h])]
    simp [List.length_pos]
  · intro h1 h2 h3
    rw [if_neg h1, if_neg (by simp [h2, h3])]
    simp

/-- Claim C4 witness: a glob spec with one match resolves to `true`, a
literal existing path resolves to `true`, the empty spec to `false`. -/
theorem C4_artifact_resolver_witness :
    check_artifact_exists fsGlob "logs/*.txt" = true ∧
    check_artifact_exists fsA "configs/policy.md" = true ∧
    check_artifact_exists fsA "" = false := by
  refine ⟨?_, ?_, ?_⟩
  · exact ((C4_artifact_resolver fsGlob "logs/*.txt").2.1 (by decide)
      (Or.inl (by decide))).mpr (by decide)
  · exact ((C4_artifact_resolver fsA "configs/policy.md").2.2 (by decide) (by decide)
      (by decide)).mpr (Or.inl (by decide))
  · exact (C4_artifact_resolver fsA "").1 rfl

/-- Claim C8: the code collapses a permission-denied I/O error during
the existence check into plain `Missing` (because `os.path.exists`
swallows `OSError`), instead of a status distinguishable from
`Missing` as the claim requires: the control whose artifact stat hits
an I/O error is reported `Missing` / `"Artifact not found"`. -/
theorem C8_permission_error_reported_missing :
    permFS.stat recPerm.artifact = FSResult.ioError ∧
    os_path_exists permFS recPerm.artifact = false ∧
    (assess_control permFS recPerm).status = "Missing" ∧
    (assess_control permFS recPerm).reason = "Artifact not found" := by
  decide

/-- Claim C3: for every tri-state assessment sequence, the summary
satisfies `implemented + missing + not_applicable = total_controls`;
each layer entry's three counters sum to the number of assessments
carrying that layer key (the entry existing exactly when the key was
seen); the layer counters sum across layers to the global counters; and
appending one assessment increments exactly one global counter and
exactly one counter of its own layer's entry, leaving other layers
untouched. -/
theorem C3_aggregation_identity (clock : Nat → Nat) (t : Nat) (as : List Assessment)
    (h : TriState as) (s : Summary) (hs : s = (generate_summary clock t as).1) :
    s.implemented + s.missing + s.not_applicable = s.total_controls ∧
    (∀ k st, alookup s.layer_statistics k = some st →
      st.implemented + st.missing + st.not_applicable
        = as.countP (fun a => a.layer_number == k)) ∧
    (∀ k, alookup s.layer_statistics k ≠ none ↔ ∃ a ∈ as, a.layer_number = k) ∧
    sumBy LayerStats.implemented s.layer_statistics = s.implemented ∧
    sumBy LayerStats.missing s.layer_statistics = s.missing ∧
    sumBy LayerStats.not_applicable s.layer_statistics = s.not_applicable ∧
    (∀ (a : Assessment) (s' : Summary),
      s' = (generate_summary clock t (as ++ [a])).1 →
      s'.total_controls = s.total_controls + 1 ∧
      s'.implemented = s.implemented + (if a.status = "Implemented" then 1 else 0) ∧
      s'.missing = s.missing + (if a.status = "Missing" then 1 else 0) ∧
      s'.not_applicable
        = s.not_applicable + (if a.status = "Not Applicable" then 1 else 0) ∧
      alookup s'.layer_statistics a.layer_number
        = some (updateLayer
            ((alookup s.layer_statistics a.layer_number).getD ⟨0, 0, 0⟩) a.status) ∧
      (∀ k, k ≠ a.layer_number →
        alookup s'.layer_statistics k = alookup s.layer_statistics k)) := by
  subst hs
  simp only [generate_summary]
  refine ⟨?_, ?_, ?_, ?_, ?_, ?_, ?_⟩
  · exact countP_triState as h
  · intro k st hst
    rw [alookup_foldl_layerStep] at hst
    simp only [alookup] at hst
    split at hst
    · rename_i hany
      rw [Option.some.injEq] at hst
      subst hst
      rw [applyLayer_counts]
      simpa using countLayer_triState as k h
    · exact absurd hst (by simp)
  · intro k
    rw [alookup_foldl_layerStep]
    simp only [alookup]
    split
    · rename_i hany
      simp only [List.any_eq_true, beq_iff_eq] at hany
      simpa using hany
    · rename_i hany
      simp only [List.any_eq_true, beq_iff_eq] at hany
      simpa using hany
  · rw [sumBy_foldl_layerStep LayerStats.implemented "Implemented"
      updateLayer_implemented rfl]
    simp [sumBy]
  · rw [sumBy_foldl_layerStep LayerStats.missing "Missing" updateLayer_missing rfl]
    simp [sumBy]
  · rw [sumBy_foldl_layerStep LayerStats.not_applicable "Not Applicable"
      updateLayer_not_applicable rfl]
    simp [sumBy]
  · intro a s' hs'
    subst hs'
    simp only [generate_summary]
    refine ⟨by simp, ?_, ?_, ?_, ?_, ?_⟩
    · simp only [List.countP_append, List.countP_cons, List.countP_nil, beq_iff_eq]
      by_cases hsa : a.status = "Implemented" <;> simp [hsa]
    · simp only [List.countP_append, List.countP_cons, List.countP_nil, beq_iff_eq]
      by_cases hsa : a.status = "Missing" <;> simp [hsa]
    · simp only [List.countP_append, List.countP_cons, List.countP_nil, beq_iff_eq]
      by_cases hsa : a.status = "Not Applicable" <;> simp [hsa]
    · rw [List.foldl_append]
      simp only [List.foldl_cons, List.foldl_nil]
      unfold layerStep
      rw [alookup_astep]
      simp
    · intro k hk
      rw [List.foldl_append]
      simp only [List.foldl_cons, List.foldl_nil]
      unfold layerStep
      rw [alookup_astep]
      rw [if_neg hk]

/-- Claim C3 witness: the identities instantiated on the three-row demo
assessment list. -/
theorem C3_aggregation_identity_witness :
    (generate_summary idClock 0 demoAssessments).1.implemented
        + (generate_summary idClock 0 demoAssessments).1.missing
        + (generate_summary idClock 0 demoAssessments).1.not_applicable
      = (generate_summary idClock 0 demoAssessments).1.total_controls ∧
    (generate_summary idClock 0 demoAssessments).1.total_controls = 3 := by
  have h := C3_aggregation_identity idClock 0 demoAssessments
    (by unfold TriState; decide) _ rfl
  exact ⟨h.1, by decide⟩

/-- Claim C2 (counterexample): the security dashboard's global rate
divides by `total_controls`, not by `applicable = implemented +
missing`. On a checklist with one not-applicable and one implemented
control the dashboard computes 50, while the claim's formula gives
100. -/
theorem C2_dashboard_rate_cex :
    (calculate_compliance_metrics fsA [recNoArtifact, recFound]).implemented_controls = 1 ∧
    (calculate_compliance_metrics fsA [recNoArtifact, recFound]).missing_controls = 0 ∧
    (calculate_compliance_metrics fsA [recNoArtifact, recFound]).compliance_rate = 50 ∧
    (((calculate_compliance_metrics fsA [recNoArtifact, recFound]).implemented_controls : ℚ)
        / (((calculate_compliance_metrics fsA [recNoArtifact, recFound]).implemented_controls
            + (calculate_compliance_metrics fsA [recNoArtifact, recFound]).missing_controls : ℕ) : ℚ)
        * 100 = 100) ∧
    (calculate_compliance_metrics fsA [recNoArtifact, recFound]).compliance_rate ≠ 100 := by
  have h1 : (calculate_compliance_metrics fsA [recNoArtifact, recFound]).implemented_controls
      = 1 := by decide
  have h2 : (calculate_compliance_metrics fsA [recNoArtifact, recFound]).missing_controls
      = 0 := by decide
  have hr : (calculate_compliance_metrics fsA [recNoArtifact, recFound]).compliance_rate
      = ((1 : ℕ) : ℚ) / ((2 : ℕ) : ℚ) * 100 := rfl
  refine ⟨h1, h2, ?_, ?_, ?_⟩
  · rw [hr]
    norm_num
  · rw [h1, h2]
    norm_num
  · rw [hr]
    norm_num

/-- Claim C2 (amended): in the compliance report generator every rate —
global and per layer — equals `implemented / applicable * 100` with
`applicable = implemented + missing` (not-applicable excluded) and is
exactly 0 when the denominator is 0; the security dashboard instead
computes its global rate as `implemented / total_controls * 100` and
its per-layer display rate as `implemented / total * 100`, with
not-applicable controls included in those denominators (0 when the
denominator is 0). All rates are total functions into ℚ. -/
theorem C2_rates_amended (clock : Nat → Nat) (t t' : Nat) (as : List Assessment)
    (fs : FileSystem) (checklist : List ControlRecord) (am : AuditMetrics)
    (s : Summary) (hs : s = (generate_summary clock t as).1) :
    s.applicable = s.implemented + s.missing ∧
    s.compliance_rate =
      (if s.applicable > 0 then (s.implemented : ℚ) / (s.applicable : ℚ) * 100 else 0) ∧
    (generate_text_report as s).layer_lines =
      s.layer_statistics.map (fun p =>
        (p.1, p.2.implemented, p.2.implemented + p.2.missing,
          if p.2.implemented + p.2.missing > 0 then
            (p.2.implemented : ℚ) / ((p.2.implemented : ℚ) + (p.2.missing : ℚ)) * 100
          else 0)) ∧
    (calculate_compliance_metrics fs checklist).total_controls = checklist.length ∧
    (calculate_compliance_metrics fs checklist).compliance_rate =
      (if (calculate_compliance_metrics fs checklist).total_controls > 0 then
        ((calculate_compliance_metrics fs checklist).implemented_controls : ℚ)
          / ((calculate_compliance_metrics fs checklist).total_controls : ℚ) * 100
      else 0) ∧
    (generate_html_report clock t' am (calculate_compliance_metrics fs checklist)).1.layer_rows
      = (calculate_compliance_metrics fs checklist).layer_metrics.map (fun p =>
          (p.1, get_layer_name p.1,
            if p.2.total > 0 then (p.2.implemented : ℚ) / (p.2.total : ℚ) * 100 else 0,
            p.2.implemented, p.2.total)) := by
  subst hs
  refine ⟨?_, ?_, ?_, rfl, rfl, rfl⟩
  · simp [generate_summary]
  · simp [generate_summary]
  · simp only [generate_text_report]
    apply List.map_congr_left
    intro p hp
    have hcast : ((p.2.implemented + p.2.missing : ℕ) : ℚ)
        = (p.2.implemented : ℚ) + (p.2.missing : ℚ) := by push_cast; ring
    simp [hcast]

/-- Claim C2 witness: the amended identities on the demo run. -/
theorem C2_rates_witness :
    (generate_summary idClock 0 demoAssessments).1.applicable
        = (generate_summary idClock 0 demoAssessments).1.implemented
          + (generate_summary idClock 0 demoAssessments).1.missing ∧
    (generate_summary idClock 0 demoAssessments).1.applicable = 2 := by
  have h := C2_rates_amended idClock 0 0 demoAssessments fsA [recFound] amDemo _ rfl
  exact ⟨h.1, by decide⟩

/-- Claim C5 (counterexample): in one dashboard run the HTML report and
the JSON payload surface different `datetime.now()` values (clock draws
1 and 2 of the same run), so the run does not surface a single
timestamp. -/
theorem C5_dashboard_timestamps_cex :
    (dashboard_main idClock (ChecklistSource.ok [recFound]) fsA ToolRun.raised
        ToolRun.raised).map (fun o => (o.html.generated, o.json.timestamp))
      = Except.ok (1, 2) ∧ (1 : Nat) ≠ 2 :=
  ⟨rfl, by decide⟩

/-- Claim C5 (amended): the compliance report generator captures the
timestamp exactly once, in `generate_summary`, and its text and JSON
reports surface that same value; the security dashboard instead draws a
fresh timestamp for the audit metrics, for the HTML report and for the
JSON payload (clock positions 0, 1 and 2 of the run), so its outputs
need not agree. -/
theorem C5_timestamp_amended (clock : Nat → Nat) (src : ChecklistSource)
    (fs : FileSystem) :
    (∀ t as, (generate_summary clock t as).1.generated_at = clock t ∧
      (generate_summary clock t as).2 = t + 1) ∧
    (∀ out, report_main clock src fs = Except.ok out →
      out.text.generated = out.json.summary.generated_at ∧
      out.json.summary.generated_at = clock 0) ∧
    (∀ (audit : ToolRun AuditOutput) (deny : ToolRun DenyOutput) out,
      dashboard_main clock src fs audit deny = Except.ok out →
      out.json.audit_metrics.timestamp = clock 0 ∧
      out.html.generated = clock 1 ∧
      out.json.timestamp = clock 2) := by
  refine ⟨fun t as => ⟨rfl, rfl⟩, ?_, ?_⟩
  · intro out hout
    cases src with
    | missing => simp [report_main, load_checklist] at hout
    | unreadable => simp [report_main, load_checklist] at hout
    | ok rows =>
      simp only [report_main, load_checklist] at hout
      rw [Except.ok.injEq] at hout
      subst hout
      exact ⟨rfl, rfl⟩
  · intro audit deny out hout
    cases src with
    | missing => simp [dashboard_main, load_checklist] at hout
    | unreadable => simp [dashboard_main, load_checklist] at hout
    | ok rows =>
      cases audit <;> cases deny <;>
        simp only [dashboard_main, load_checklist, run_security_audit,
          generate_html_report] at hout <;>
        first
        | (rw [Except.ok.injEq] at hout
           subst hout
           exact ⟨rfl, rfl, rfl⟩)
        | simp at hout

/-- Claim C5 witness: the dashboard timestamp positions on a concrete
run with the identity clock. -/
theorem C5_timestamp_witness :
    dashDemoOut.json.audit_metrics.timestamp = idClock 0 ∧
    dashDemoOut.html.generated = idClock 1 ∧
    dashDemoOut.json.timestamp = idClock 2 := by
  have h := (C5_timestamp_amended idClock (ChecklistSource.ok [recFound]) fsA).2.2
    ToolRun.raised ToolRun.raised dashDemoOut rfl
  exact h

/-- Claim C6 (counterexample): with cargo audit unavailable the HTML
dashboard renders `"N/A"` for the total vulnerability count but renders
the numeric default `"0"` — not `"N/A"` — for the critical count. -/
theorem C6_critical_renders_zero_cex :
    (dashboard_main idClock (ChecklistSource.ok [recAbsent]) fsA ToolRun.raised
        (ToolRun.exitZeroParsed ⟨["license-1"], ["ban-1"]⟩)).map
      (fun o => (o.json.audit_metrics.vuln_error, o.html.vulnerabilities_count,
        o.html.vulnerabilities_critical))
      = Except.ok (some "Cargo audit not available", "N/A", "0") ∧
    ("0" : String) ≠ "N/A" :=
  ⟨rfl, by decide⟩

/-- Claim C6 (amended): a tool outcome that is a caught exception or a
non-zero exit records an explicit error marker and no numeric metrics
for that tool; the HTML renderer then shows `"N/A"` for the total
vulnerability count but shows the numeric default `"0"` for the
critical count, and never renders the license or ban issues at all —
the section of the HTML that names them is a plain (non-f) string, so
the rendered report is independent of those metrics; and a tool that
exits zero with unparseable output raises an uncaught
`json.JSONDecodeError` instead of recording any marker. -/
theorem C6_unavailable_amended :
    (∀ (clock : Nat → Nat) (t : Nat) (audit : ToolRun AuditOutput)
        (deny : ToolRun DenyOutput) am t',
      run_security_audit clock t audit deny = Except.ok (am, t') →
      ((audit = ToolRun.raised ∨ audit = ToolRun.exitNonZero) →
        am.vuln_error.isSome = true ∧ am.vuln_count = none ∧ am.vuln_critical = none) ∧
      ((deny = ToolRun.raised ∨ deny = ToolRun.exitNonZero) →
        am.compliance_error.isSome = true ∧ am.license_issues = none ∧
          am.ban_issues = none)) ∧
    (∀ (clock : Nat → Nat) (t : Nat) (am : AuditMetrics) (cm : DashMetrics),
      (am.vuln_count = none →
        (generate_html_report clock t am cm).1.vulnerabilities_count = "N/A") ∧
      (am.vuln_critical = none →
        (generate_html_report clock t am cm).1.vulnerabilities_critical = "0")) ∧
    (∀ (clock : Nat → Nat) (t : Nat) (am am' : AuditMetrics) (cm : DashMetrics),
      am.vuln_count = am'.vuln_count → am.vuln_critical = am'.vuln_critical →
      generate_html_report clock t am cm = generate_html_report clock t am' cm) ∧
    (∀ (clock : Nat → Nat) (t : Nat) (deny : ToolRun DenyOutput),
      run_security_audit clock t ToolRun.exitZeroUnparseable deny
        = Except.error
            (RunError.uncaughtException "json.JSONDecodeError: cargo audit stdout")) ∧
    (∀ (clock : Nat → Nat) (t : Nat) (audit : ToolRun AuditOutput),
      audit.escapes = false →
      run_security_audit clock t audit ToolRun.exitZeroUnparseable
        = Except.error
            (RunError.uncaughtException "json.JSONDecodeError: cargo deny stdout")) := by
  refine ⟨?_, ?_, ?_, ?_, ?_⟩
  · intro clock t audit deny am t' hrun
    cases audit <;> cases deny <;>
      simp only [run_security_audit] at hrun <;>
      first
      | (rw [Except.ok.injEq, Prod.mk.injEq] at hrun
         obtain ⟨ham, -⟩ := hrun
         subst ham
         constructor
         · rintro (h | h) <;> first | exact ⟨rfl, rfl, rfl⟩ | simp at h
         · rintro (h | h) <;> first | exact ⟨rfl, rfl, rfl⟩ | simp at h)
      | simp at hrun
  · intro clock t am cm
    refine ⟨fun h => ?_, fun h => ?_⟩ <;>
      simp [generate_html_report, renderOrNA, renderOrZero, h]
  · intro clock t am am' cm h1 h2
    simp [generate_html_report, h1, h2]
  · intro clock t deny
    rfl
  · intro clock t audit ha
    cases audit <;> first | rfl | simp [ToolRun.escapes] at ha

/-- Claim C6 witness: a run with cargo audit raised and cargo deny
exiting non-zero records both error markers and no numeric metrics. -/
theorem C6_unavailable_witness :
    amDemo.vuln_error.isSome = true ∧ amDemo.vuln_count = none ∧
    amDemo.vuln_critical = none := by
  have h := C6_unavailable_amended.1 idClock 0 ToolRun.raised ToolRun.exitNonZero
    amDemo 1 rfl
  exact h.1 (Or.inl rfl)

/-- Claim C7 (counterexample): not every per-tool failure mode is
isolated — cargo deny exiting zero with unparseable output raises an
uncaught exception, aborting the run before any `ComplianceSummary` is
produced, even though cargo audit succeeded. -/
theorem C7_unparseable_aborts_cex :
    dashboard_main idClock (ChecklistSource.ok [recFound]) fsA
        (ToolRun.exitZeroParsed ⟨[]⟩) ToolRun.exitZeroUnparseable
      = Except.error
          (RunError.uncaughtException "json.JSONDecodeError: cargo deny stdout") :=
  rfl

/-- Claim C7 (amended): for every combination of per-tool outcomes that
does not escape the `except` clause (caught exception, non-zero exit,
or parsed success), the dashboard run completes and its compliance
metrics equal both those of a run with no tools available and
`calculate_compliance_metrics` itself; a tool exiting zero with
unparseable output instead aborts the run. -/
theorem C7_isolation_amended (clock : Nat → Nat) (rows : List ControlRecord)
    (fs : FileSystem) (audit : ToolRun AuditOutput) (deny : ToolRun DenyOutput)
    (ha : audit.escapes = false) (hd : deny.escapes = false) :
    ∃ out base,
      dashboard_main clock (ChecklistSource.ok rows) fs audit deny = Except.ok out ∧
      dashboard_main clock (ChecklistSource.ok rows) fs ToolRun.raised ToolRun.raised
        = Except.ok base ∧
      out.json.compliance_metrics = base.json.compliance_metrics ∧
      out.json.compliance_metrics = calculate_compliance_metrics fs rows ∧
      out.html.compliance_rate = (calculate_compliance_metrics fs rows).compliance_rate := by
  cases audit <;> cases deny <;>
    first
    | exact ⟨_, _, rfl, rfl, rfl, rfl, rfl⟩
    | simp [ToolRun.escapes] at ha hd

/-- Claim C7 witness: a run with cargo audit exiting non-zero still
completes and reports the one-control compliance metrics. -/
theorem C7_isolation_witness :
    (dashboard_main idClock (ChecklistSource.ok [recFound]) fsA ToolRun.exitNonZero
        ToolRun.raised).map (fun o => o.json.compliance_metrics.total_controls)
      = Except.ok 1 := by
  obtain ⟨out, base, h1, h2, h3, h4, h5⟩ :=
    C7_isolation_amended idClock [recFound] fsA ToolRun.exitNonZero ToolRun.raised rfl rfl
  rw [h1]
  simp only [Except.map, h4]
  rw [show (calculate_compliance_metrics fsA [recFound]).total_controls = 1 from by decide]

/-- Claim C9 (counterexample): a run whose checklist loads successfully
can still halt with no output at all — an unparseable zero-exit cargo
audit aborts the dashboard — so load failure is not the only failure
mode that halts output entirely. -/
theorem C9_parse_crash_halts_cex :
    load_checklist (ChecklistSource.ok [recAbsent]) = Except.ok [recAbsent] ∧
    dashboard_main idClock (ChecklistSource.ok [recAbsent]) fsA
        ToolRun.exitZeroUnparseable ToolRun.raised
      = Except.error
          (RunError.uncaughtException "json.JSONDecodeError: cargo audit stdout") :=
  ⟨rfl, rfl⟩

/-- Claim C9 (amended): a missing or unreadable checklist makes both
scripts exit with status 1 before any assessment or output; with a
loadable checklist the report generator always completes, and the
dashboard completes whenever no tool output escapes the `except`
clause — but an unparseable zero-exit tool output also halts the
dashboard with no output, so load failure is not the only halting
failure mode. -/
theorem C9_load_failure_amended :
    (∀ (clock : Nat → Nat) (fs : FileSystem),
      report_main clock ChecklistSource.missing fs
        = Except.error (RunError.exitCode 1)) ∧
    (∀ (clock : Nat → Nat) (fs : FileSystem),
      report_main clock ChecklistSource.unreadable fs
        = Except.error (RunError.exitCode 1)) ∧
    (∀ (clock : Nat → Nat) (fs : FileSystem) (audit : ToolRun AuditOutput)
        (deny : ToolRun DenyOutput),
      dashboard_main clock ChecklistSource.missing fs audit deny
        = Except.error (RunError.exitCode 1)) ∧
    (∀ (clock : Nat → Nat) (fs : FileSystem) (audit : ToolRun AuditOutput)
        (deny : ToolRun DenyOutput),
      dashboard_main clock ChecklistSource.unreadable fs audit deny
        = Except.error (RunError.exitCode 1)) ∧
    (∀ (clock : Nat → Nat) (fs : FileSystem) (rows : List ControlRecord),
      ∃ out, report_main clock (ChecklistSource.ok rows) fs = Except.ok out) ∧
    (∀ (clock : Nat → Nat) (fs : FileSystem) (rows : List ControlRecord)
        (audit : ToolRun AuditOutput) (deny : ToolRun DenyOutput),
      audit.escapes = false → deny.escapes = false →
      ∃ out, dashboard_main clock (ChecklistSource.ok rows) fs audit deny
        = Except.ok out) := by
  refine ⟨fun clock fs => rfl, fun clock fs => rfl, fun clock fs audit deny => rfl,
    fun clock fs audit deny => rfl, fun clock fs rows => ⟨_, rfl⟩, ?_⟩
  intro clock fs rows audit deny ha hd
  cases audit <;> cases deny <;>
    first
    | exact ⟨_, rfl⟩
    | simp [ToolRun.escapes] at ha hd

/-- Claim C9 witness: a loadable two-row checklist completes the
dashboard run when both tools fail in caught ways. -/
theorem C9_load_failure_witness :
    (dashboard_main idClock (ChecklistSource.ok [recAbsent, recNoArtifact]) emptyFS
        ToolRun.raised ToolRun.exitNonZero).toOption.isSome = true := by
  obtain ⟨out, h⟩ := C9_load_failure_amended.2.2.2.2.2 idClock emptyFS
    [recAbsent, recNoArtifact] ToolRun.raised ToolRun.exitNonZero rfl rfl
  rw [h]
  rfl

theorem dashUpdate_impl_le (fs : FileSystem) (c : ControlRecord) (v : DashLayerStats)
    (h : v.implemented ≤ v.total) :
    (dashUpdate fs c v).implemented ≤ (dashUpdate fs c v).total := by
  unfold dashUpdate
  split_ifs <;> simp <;> omega

/-- Claim C10: every compliance rate either script computes — the
report generator's global rate and per-layer text-report rates, and the
dashboard's global rate and per-layer HTML rates — lies between 0 and
100 inclusive, because the implemented count never exceeds the
denominator used. -/
theorem C10_rate_bounds (clock : Nat → Nat) (t t' : Nat) (as : List Assessment)
    (fs : FileSystem) (checklist : List ControlRecord) (am : AuditMetrics)
    (s : Summary) (hs : s = (generate_summary clock t as).1) :
    (0 ≤ s.compliance_rate ∧ s.compliance_rate ≤ 100) ∧
    (∀ e ∈ (generate_text_report as s).layer_lines, 0 ≤ e.2.2.2 ∧ e.2.2.2 ≤ 100) ∧
    (0 ≤ (calculate_compliance_metrics fs checklist).compliance_rate ∧
      (calculate_compliance_metrics fs checklist).compliance_rate ≤ 100) ∧
    (∀ r ∈ (generate_html_report clock t' am
        (calculate_compliance_metrics fs checklist)).1.layer_rows,
      0 ≤ r.2.2.1 ∧ r.2.2.1 ≤ 100) := by
  subst hs
  refine ⟨?_, ?_, ?_, ?_⟩
  · simp only [generate_summary]
    exact guarded_rate_bounds _ _ (Nat.le_add_right _ _)
  · intro e he
    simp only [generate_text_report, List.mem_map] at he
    obtain ⟨p, hp, rfl⟩ := he
    exact guarded_rate_bounds _ _ (Nat.le_add_right _ _)
  · simp only [calculate_compliance_metrics]
    exact guarded_rate_bounds _ _ (List.countP_le_length _)
  · intro r hr
    simp only [generate_html_report, List.mem_map] at hr
    obtain ⟨p, hp, rfl⟩ := hr
    have hinv : p.2.implemented ≤ p.2.total := by
      have hall := forall_foldl_dashLayerStep fs
        (fun v => v.implemented ≤ v.total) (Nat.le_refl 0)
        (fun c v h => dashUpdate_impl_le fs c v h) checklist [] (by simp)
      exact hall p hp
    exact guarded_rate_bounds _ _ hinv

/-- Claim C10 witness: the bound instantiated on the single layer line
of the one-control demo run. -/
theorem C10_rate_bounds_witness :
    0 ≤ ((generate_text_report demoAs1
        (generate_summary idClock 0 demoAs1).1).layer_lines.headD ("", 0, 0, 0)).2.2.2 ∧
    ((generate_text_report demoAs1
        (generate_summary idClock 0 demoAs1).1).layer_lines.headD ("", 0, 0, 0)).2.2.2
      ≤ 100 := by
  have h := (C10_rate_bounds idClock 0 0 demoAs1 fsA [recFound] amDemo _ rfl).2.1
  exact h _ (List.Mem.head _)

end SnippingBot
